import Mathlib

/-!
Verification development for the step-target itinerary optimizer
(repository file src/code/custom_step.py).

The Python code is shallowly embedded as follows.

* Python floats are modelled as exact rationals: the numeric claims under
  scrutiny are about the algebra of the computations, not about rounding of
  IEEE doubles.
* JSON-like payloads (the dictionaries received from the transit APIs) are
  modelled by the inductive type JVal.  Dictionary subscripting d[k],
  d.get(k) and d.get(k, default) are modelled by pySub, pyGet and pyGetD,
  which return Except values mirroring the exceptions CPython raises
  (KeyError for a missing key, TypeError for subscripting a non-dict,
  AttributeError for calling .get on a non-dict, ValueError for float()
  on a non-numeric value).  float() applied to a numeric string is not
  modelled (coordinates are modelled as JSON numbers); no claim exercises
  that path.
* haversine_distance computes with transcendental functions (sin, cos,
  atan2, sqrt); its value is irrelevant to every claim, so the functions
  that call it take an arbitrary geodesy oracle
  hav : lat1 -> lon1 -> lat2 -> lon2 -> distance as a parameter, and the
  theorems below are proved for every such oracle.
* get_itinerary performs a network call and either returns parsed JSON or
  (re-)raises; it is modelled by an arbitrary service oracle
  svc : four coordinates -> Except PyErr JVal.
* Functions that print and mutate local accumulators are modelled by pure
  functions returning the accumulated state; in-place mutation of the
  caller's lists by list.sort is modelled by returning the new list
  contents alongside the result.
-/

/-- Python exception kinds relevant to the embedded code. -/
inductive PyErr where
  | keyError (k : String)
  | indexError
  | typeError
  | attrError
  | valueError
  | svcError (msg : String)
deriving DecidableEq

/-- JSON-like values: the shape of the payloads the Python code manipulates.
Objects are association lists (insertion order is irrelevant to the code). -/
inductive JVal where
  | null
  | bool (v : Bool)
  | num (q : ℚ)
  | str (s : String)
  | arr (xs : List JVal)
  | obj (fields : List (String × JVal))

/-- Python truthiness of a value (None, False, 0, empty containers and the
empty string are falsy). -/
def JVal.truthy : JVal → Bool
  | .null => false
  | .bool v => v
  | .num q => decide (q ≠ 0)
  | .str s => !s.isEmpty
  | .arr xs => !xs.isEmpty
  | .obj fs => !fs.isEmpty

/-- Association-list lookup used for Python dict access (first binding of
the key wins, matching dict semantics with distinct keys). -/
def assocLookup {α : Type} (fs : List (String × α)) (k : String) : Option α :=
  match fs with
  | [] => none
  | (k2, v) :: rest => if k = k2 then some v else assocLookup rest k

/-- Model of Python d.get(k): value, or None when the key is absent;
AttributeError when the receiver is not a dict. -/
def pyGet (v : JVal) (k : String) : Except PyErr JVal :=
  match v with
  | .obj fs => .ok ((assocLookup fs k).getD .null)
  | _ => .error .attrError

/-- Model of Python d.get(k, default). -/
def pyGetD (v : JVal) (k : String) (dflt : JVal) : Except PyErr JVal :=
  match v with
  | .obj fs => .ok ((assocLookup fs k).getD dflt)
  | _ => .error .attrError

/-- Model of Python d[k] subscripting with a string key: KeyError when the
key is absent, TypeError when the receiver is not a dict. -/
def pySub (v : JVal) (k : String) : Except PyErr JVal :=
  match v with
  | .obj fs =>
    match assocLookup fs k with
    | some x => .ok x
    | none => .error (.keyError k)
  | _ => .error .typeError

/-- Model of Python equality between a payload value and a string literal:
values of other types compare unequal without error. -/
def jvEqStr (v : JVal) (s : String) : Bool :=
  match v with
  | .str t => decide (t = s)
  | _ => false

/-- Model of Python float(x) on a payload value.  JSON numbers (and bools)
convert; other shapes raise.  (CPython also parses numeric strings; the
payloads modelled here carry coordinates as numbers, and no claim depends
on string parsing.) -/
def pyFloat (v : JVal) : Except PyErr ℚ :=
  match v with
  | .num q => .ok q
  | .bool b => .ok (if b then 1 else 0)
  | _ => .error .valueError

/-- Model of Python list indexing lst[0] as used on the journeys array.
On a non-array the net effect in the source is always an exception; the
exact exception class does not matter to any claim and is normalised to
TypeError. -/
def pyIndex0 (v : JVal) : Except PyErr JVal :=
  match v with
  | .arr (x :: _) => .ok x
  | .arr [] => .error .indexError
  | _ => .error .typeError

/-- Model of Python iteration over a value expected to be a list.  Iterating
a truthy non-list in the source always ends in an exception before any state
is updated (a string yields characters, a dict yields keys, and the first
element access on either raises); the net effect is normalised to TypeError. -/
def asArr (v : JVal) : Except PyErr (List JVal) :=
  match v with
  | .arr xs => .ok xs
  | _ => .error .typeError

/-- Model of a value that must be a Python str (receiver of .split()). -/
def asStr (v : JVal) : Except PyErr String :=
  match v with
  | .str s => .ok s
  | _ => .error .attrError

/-- Helper for Python s.split(): accumulate the current token (in reverse)
and the finished tokens (in reverse). -/
def splitWsAux (cs : List Char) (cur : List Char) (acc : List String) : List String :=
  match cs with
  | [] => if cur.isEmpty then acc.reverse else (String.mk cur.reverse :: acc).reverse
  | c :: rest =>
    if c.isWhitespace then
      if cur.isEmpty then splitWsAux rest [] acc
      else splitWsAux rest [] (String.mk cur.reverse :: acc)
    else splitWsAux rest (c :: cur) acc

/-- Model of Python s.split() with no arguments: split on runs of whitespace,
discarding empty tokens (so the empty string yields the empty list). -/
def splitWs (s : String) : List String :=
  splitWsAux s.toList [] []

/-- Model of Python tokens[0]: IndexError on the empty list. -/
def headE (l : List String) : Except PyErr String :=
  match l with
  | [] => .error .indexError
  | x :: _ => .ok x

/-- CO2 emissions table in g per passenger-km (module constant EMISSIONS,
src/code/custom_step.py lines 14-21). -/
def EMISSIONS : List (String × ℚ) :=
  [("RER", 3.8), ("Metro", 3.2), ("Bus", 95.3), ("Tramway", 3.3),
   ("Train", 3.8), ("Car", 206.0)]

/-- Model of calculate_step_length (lines 23-29): the formula is applied
unconditionally, there is no validation of the height. -/
def calculate_step_length (height_cm : ℚ) : ℚ :=
  height_cm / 100 * 0.414

/-- Python int() truncates toward zero. -/
def pyTrunc (q : ℚ) : ℤ :=
  if 0 ≤ q then ⌊q⌋ else ⌈q⌉

/-- Model of calculate_steps (lines 31-33): int(distance_meters / step_length).
(float division by a zero stride raises in CPython; no claim exercises a zero
stride, and every theorem below that touches this function assumes a positive
stride.) -/
def calculate_steps (distance_meters : ℚ) (step_length : ℚ) : ℤ :=
  pyTrunc (distance_meters / step_length)

/-- Model of calculate_distance_from_steps (lines 35-37). -/
def calculate_distance_from_steps (steps : ℤ) (step_length : ℚ) : ℚ :=
  steps * step_length

/-- Coordinate resolution inside calculate_walking_distance (lines 62-72):
the address variant is used when embedded_type == 'address', otherwise the
stop_point variant. -/
def getCoord (endpoint : JVal) : Except PyErr JVal := do
  let et ← pyGet endpoint "embedded_type"
  if jvEqStr et "address" then
    let a ← pySub endpoint "address"
    pySub a "coord"
  else
    let sp ← pySub endpoint "stop_point"
    pySub sp "coord"

/-- Body of the try block of calculate_walking_distance (lines 61-79):
resolve both coordinates, then convert lat/lon to floats in the order CPython
evaluates the haversine_distance call's arguments. -/
def cwdBody (hav : ℚ → ℚ → ℚ → ℚ → ℚ) (f t : JVal) : Except PyErr ℚ := do
  let fc ← getCoord f
  let tc ← getCoord t
  let la1 ← pyFloat (← pySub fc "lat")
  let lo1 ← pyFloat (← pySub fc "lon")
  let la2 ← pyFloat (← pySub tc "lat")
  let lo2 ← pyFloat (← pySub tc "lon")
  pure (hav la1 lo1 la2 lo2)

/-- Model of calculate_walking_distance (lines 56-83), parametrised by the
geodesy oracle hav standing for haversine_distance.  A falsy or absent
endpoint yields 0; the try block catches KeyError only. -/
def calculate_walking_distance (hav : ℚ → ℚ → ℚ → ℚ → ℚ) (sec : JVal) :
    Except PyErr ℚ :=
  match pyGet sec "from", pyGet sec "to" with
  | .error e, _ => .error e
  | .ok _, .error e => .error e
  | .ok f, .ok t =>
    if !f.truthy || !t.truthy then .ok 0
    else
      match cwdBody hav f t with
      | .ok d => .ok d
      | .error (.keyError _) => .ok 0
      | .error e => .error e

/-- Summary quantities accumulated and printed by
format_itinerary_with_steps (lines 122-172).  The printed per-section lines
and durations are side effects without numeric state and are not recorded;
the subscript accesses their f-strings perform are modelled (they can
raise). -/
structure Summary where
  total_steps : ℤ
  total_walking_distance : ℚ
  total_distance : ℚ
  co2_transit : ℚ
  co2_car : ℚ
  co2_saved : ℚ

/-- Final summary construction (lines 162-172): car_co2 is
total_distance * EMISSIONS['Car'] and the saved figure is their difference.
The state triple t is (total_walking_distance, total_distance, total_co2). -/
def mkSummary (step_length : ℚ) (t : ℚ × ℚ × ℚ) : Summary :=
  { total_steps := calculate_steps t.1 step_length
    total_walking_distance := t.1
    total_distance := t.2.1
    co2_transit := t.2.2
    co2_car := t.2.1 * ((assocLookup EMISSIONS "Car").getD 0)
    co2_saved := t.2.1 * ((assocLookup EMISSIONS "Car").getD 0) - t.2.2 }

/-- One iteration of the section loop of format_itinerary_with_steps
(lines 137-160), threading (total_walking_distance, total_distance,
total_co2).  Subscript accesses made by the print statements are modelled in
CPython's evaluation order because their exceptions propagate; the operand
check of the integer division duration // 60 is normalised to pyFloat. -/
def sectionStep (hav : ℚ → ℚ → ℚ → ℚ → ℚ) (step_length : ℚ)
    (st : ℚ × ℚ × ℚ) (sec : JVal) : Except PyErr (ℚ × ℚ × ℚ) := do
  let (twd, td, tco2) := st
  let ty ← pySub sec "type"
  if jvEqStr ty "public_transport" then do
    let d0 ← calculate_walking_distance hav sec
    let distance := d0 / 1000
    let di ← pySub sec "display_informations"
    let pmv ← pyGetD di "physical_mode" (.str "")
    let pm ← asStr pmv
    let mode ← headE (splitWs pm)
    let ef := (assocLookup EMISSIONS mode).getD 0
    let _ ← pySub di "physical_mode"
    let _ ← pySub di "code"
    let fr ← pySub sec "from"
    let _ ← pySub fr "name"
    let toEp ← pySub sec "to"
    let _ ← pySub toEp "name"
    let du ← pySub sec "duration"
    let _ ← pyFloat du
    pure (twd, td + distance, tco2 + distance * ef)
  else if jvEqStr ty "street_network" then do
    let md ← pySub sec "mode"
    if jvEqStr md "walking" then do
      let wd ← calculate_walking_distance hav sec
      let _ := calculate_steps wd step_length
      let du ← pySub sec "duration"
      let _ ← pyFloat du
      pure (twd + wd, td, tco2)
    else pure (twd, td, tco2)
  else if jvEqStr ty "waiting" then do
    let du ← pySub sec "duration"
    let _ ← pyFloat du
    pure (twd, td, tco2)
  else pure (twd, td, tco2)

/-- Model of format_itinerary_with_steps (lines 122-172), parametrised by the
geodesy oracle.  Returns none when the journeys field is falsy (the source
prints 'No journeys found!' and returns), otherwise the accumulated Summary;
errors are the exceptions the source would raise. -/
def format_itinerary_with_steps (hav : ℚ → ℚ → ℚ → ℚ → ℚ)
    (journey_data : JVal) (step_length : ℚ) : Except PyErr (Option Summary) := do
  let js ← pyGet journey_data "journeys"
  if !js.truthy then pure none
  else do
    let jarr ← pySub journey_data "journeys"
    let journey ← pyIndex0 jarr
    let du ← pySub journey "duration"
    let _ ← pyFloat du
    let secsv ← pySub journey "sections"
    let secs ← asArr secsv
    let totals ← secs.foldlM (sectionStep hav step_length) ((0 : ℚ), (0 : ℚ), (0 : ℚ))
    pure (some (mkSummary step_length totals))

/-- Geodesy oracle returning a constant distance, used by concrete tests. -/
def havConst (d : ℚ) : ℚ → ℚ → ℚ → ℚ → ℚ := fun _ _ _ _ => d

/-- Endpoint fixture in the stop-point variant, with the name field the
aggregator's print statements subscript. -/
def mkEndpoint (nm : String) (la lo : ℚ) : JVal :=
  .obj [("embedded_type", .str "stop_point"),
        ("stop_point", .obj [("coord", .obj [("lat", .num la), ("lon", .num lo)])]),
        ("name", .str nm)]

/-- Itinerary fixture: one public-transport section whose physical mode is
the given string. -/
def ptJourneyData (modeStr : String) : JVal :=
  .obj [("journeys", .arr [.obj [("duration", .num 1200),
    ("sections", .arr [.obj [("type", .str "public_transport"),
      ("from", mkEndpoint "Stop A" 0 0), ("to", mkEndpoint "Stop B" 1 1),
      ("duration", .num 600),
      ("display_informations",
        .obj [("physical_mode", .str modeStr), ("code", .str "X")])]])]])]

/-! Route search engine: find_best_route (lines 203-288).  The function
reads the module-level globals from_lat, from_lon, to_lat, to_lon in its
sort keys; they are passed as explicit parameters here.  list.sort mutates
the caller's lists in place; the model returns the sorted contents
alongside the result. -/

/-- Reading a station candidate's coordinates,
float(st['stop_point']['coord']['lat']) and ['lon'], as done in the sort
keys (lines 218-227) and in the pair loop (lines 243-263). -/
def stationLatLon (st : JVal) : Except PyErr (ℚ × ℚ) := do
  let sp ← pySub st "stop_point"
  let c ← pySub sp "coord"
  let la ← pyFloat (← pySub c "lat")
  let lo ← pyFloat (← pySub c "lon")
  pure (la, lo)

/-- Model of stations.sort(key=lambda x: haversine_distance(x.lat, x.lon,
center_lat, center_lon)) (lines 218-227): compute every key (an exception
while reading a malformed candidate propagates, the sort is not inside the
try block), then sort stably in ascending key order. -/
def sortStations (hav : ℚ → ℚ → ℚ → ℚ → ℚ) (center_lat center_lon : ℚ)
    (l : List JVal) : Except PyErr (List JVal) := do
  let keyed ← l.mapM (fun st => do
    let (la, lo) ← stationLatLon st
    pure (hav la lo center_lat center_lon, st))
  pure ((keyed.mergeSort (fun a b => decide (a.1 ≤ b.1))).map (fun x => x.2))

/-- Bound on the number of candidate stations per endpoint (line 215). -/
def MAX_STATIONS : ℕ := 10

/-- Candidate-selection policy (lines 230-237): for target_steps > 3000 the
slices from_stations[-MAX_STATIONS:] (the tail), otherwise
from_stations[:MAX_STATIONS] (the head), applied to both sorted lists. -/
def selectStations (target_steps : ℤ) (fs ts : List JVal) :
    List JVal × List JVal :=
  if 3000 < target_steps then
    (fs.drop (fs.length - MAX_STATIONS), ts.drop (ts.length - MAX_STATIONS))
  else
    (fs.take MAX_STATIONS, ts.take MAX_STATIONS)

/-- The station pairs visited by the nested loops (lines 239-240), in
iteration order: outer loop over selected origin stations, inner loop over
selected destination stations. -/
def searchPairs (target_steps : ℤ) (fs ts : List JVal) :
    List (JVal × JVal) :=
  ((selectStations target_steps fs ts).1).flatMap
    (fun a => ((selectStations target_steps fs ts).2).map (fun b => (a, b)))

/-- Total walking distance of a journey (lines 270-274): sum of
calculate_walking_distance over the sections with type street_network and
mode walking; the conjunction short-circuits, so mode is only read when the
type matches. -/
def walking_distance_sum (hav : ℚ → ℚ → ℚ → ℚ → ℚ) (sections : List JVal) :
    Except PyErr ℚ :=
  sections.foldlM
    (fun acc sec => do
      let ty ← pySub sec "type"
      if jvEqStr ty "street_network" then do
        let md ← pySub sec "mode"
        if jvEqStr md "walking" then do
          let d ← calculate_walking_distance hav sec
          pure (acc + d)
        else pure acc
      else pure acc)
    0

/-- Walking-distance score of one journey (lines 270-276):
abs(total_walking_distance - target_distance). -/
def scoreJourney (hav : ℚ → ℚ → ℚ → ℚ → ℚ) (target : ℚ) (j : JVal) :
    Except PyErr ℚ := do
  let secsv ← pySub j "sections"
  let secs ← asArr secsv
  let twd ← walking_distance_sum hav secs
  pure |twd - target|

/-- The best-so-far update (lines 278-280): replace only on a strictly
smaller score, so the first-found result wins ties.  none models the initial
state best_journey = None, best_score = inf. -/
def stepBest (st : Option (JVal × ℚ)) (x : JVal × ℚ) : Option (JVal × ℚ) :=
  match st with
  | none => some x
  | some b => if x.2 < b.2 then some x else some b

/-- The journey loop of one pair (lines 269-282).  An exception while
scoring a journey aborts the remaining journeys of this pair (it is caught
by the pair-level except), but updates already made to the best-so-far state
survive. -/
def journeysLoop (hav : ℚ → ℚ → ℚ → ℚ → ℚ) (target : ℚ)
    (st : Option (JVal × ℚ)) : List JVal → Option (JVal × ℚ)
  | [] => st
  | j :: rest =>
    match scoreJourney hav target j with
    | .error _ => st
    | .ok s => journeysLoop hav target (stepBest st (j, s)) rest

/-- One pair's preparation (lines 241-267): read both stations' coordinates
(used by the logged walk distances and the service call), invoke the Journey
Service, and test result.get('journeys') for truthiness; a falsy journeys
field means continue (none).  The two haversine_distance calls of the body
are pure and only printed, so the geodesy oracle is threaded but not
consulted here. -/
def pairResponse (_hav : ℚ → ℚ → ℚ → ℚ → ℚ)
    (svc : ℚ → ℚ → ℚ → ℚ → Except PyErr JVal) (p : JVal × JVal) :
    Except PyErr (Option (List JVal)) := do
  let (fla, flo) ← stationLatLon p.1
  let (tla, tlo) ← stationLatLon p.2
  let result ← svc fla flo tla tlo
  let js ← pyGet result "journeys"
  if !js.truthy then pure none
  else do
    let jarr ← pySub result "journeys"
    let jl ← asArr jarr
    pure (some jl)

/-- One iteration of the pair loop (lines 239-286): except Exception catches
every error raised inside the pair body, keeping whatever state has been
accumulated, and the loop continues with the next pair. -/
def evalPair (hav : ℚ → ℚ → ℚ → ℚ → ℚ)
    (svc : ℚ → ℚ → ℚ → ℚ → Except PyErr JVal) (target : ℚ)
    (st : Option (JVal × ℚ)) (p : JVal × JVal) : Option (JVal × ℚ) :=
  match pairResponse hav svc p with
  | .error _ => st
  | .ok none => st
  | .ok (some jl) => journeysLoop hav target st jl

/-- The full pair loop (lines 239-286). -/
def loopPairs (hav : ℚ → ℚ → ℚ → ℚ → ℚ)
    (svc : ℚ → ℚ → ℚ → ℚ → Except PyErr JVal) (target : ℚ)
    (pairs : List (JVal × JVal)) (st : Option (JVal × ℚ)) :
    Option (JVal × ℚ) :=
  pairs.foldl (evalPair hav svc target) st

/-- Model of find_best_route (lines 203-288), parametrised by the geodesy
oracle and the Journey Service oracle.  Returns the best journey (None when
no journey improved on the infinite initial score) together with the
post-call contents of the two caller-owned station lists, which the source
sorts in place. -/
def find_best_route (hav : ℚ → ℚ → ℚ → ℚ → ℚ)
    (svc : ℚ → ℚ → ℚ → ℚ → Except PyErr JVal)
    (from_lat from_lon to_lat to_lon : ℚ)
    (from_stations to_stations : List JVal)
    (target_steps : ℤ) (step_length : ℚ) :
    Except PyErr (Option JVal × List JVal × List JVal) := do
  let target := calculate_distance_from_steps target_steps step_length
  let fs ← sortStations hav from_lat from_lon from_stations
  let ts ← sortStations hav to_lat to_lon to_stations
  let pairs := searchPairs target_steps fs ts
  let final := loopPairs hav svc target pairs none
  pure ((final.map (fun x => x.1)), fs, ts)

/-- The scored journeys one pair contributes, in response order (empty when
the pair is skipped). -/
def scoredOf (hav : ℚ → ℚ → ℚ → ℚ → ℚ)
    (svc : ℚ → ℚ → ℚ → ℚ → Except PyErr JVal) (target : ℚ)
    (p : JVal × JVal) : List (JVal × ℚ) :=
  match pairResponse hav svc p with
  | .ok (some jl) =>
    jl.map (fun j => (j, ((scoreJourney hav target j).toOption).getD 0))
  | _ => []

/-- A pair evaluates cleanly: its Journey Service query succeeds and every
returned journey scores without an exception. -/
def cleanPair (hav : ℚ → ℚ → ℚ → ℚ → ℚ)
    (svc : ℚ → ℚ → ℚ → ℚ → Except PyErr JVal) (target : ℚ)
    (p : JVal × JVal) : Prop :=
  match pairResponse hav svc p with
  | .error _ => False
  | .ok none => True
  | .ok (some jl) => ∀ j ∈ jl, ∃ s, scoreJourney hav target j = .ok s

/-- The journey j with score s is a minimum of the scored list and the first
element attaining it: everything before it scores strictly higher,
everything after scores no lower. -/
def FirstMin (l : List (JVal × ℚ)) (j : JVal) (s : ℚ) : Prop :=
  ∃ l1 l2, l = l1 ++ (j, s) :: l2 ∧ (∀ x ∈ l1, s < x.2) ∧ (∀ x ∈ l2, s ≤ x.2)

/-! Shape predicates for claim C8: endpoints that are well-formed dicts
except possibly for absent keys, so that the only exception their traversal
can raise is a KeyError (which line 80 catches). -/

/-- A coordinate leaf is either absent or a JSON number (so float() cannot
raise). -/
def leafOk : Option JVal → Bool
  | none => true
  | some (.num _) => true
  | some _ => false

/-- A coord value is a dict whose lat/lon, when present, are numbers. -/
def coordObjOk : JVal → Bool
  | .obj fs => leafOk (assocLookup fs "lat") && leafOk (assocLookup fs "lon")
  | _ => false

/-- A variant field (address or stop_point) is either absent, or a dict
whose coord field, when present, is an acceptable coord dict. -/
def variantOk : Option JVal → Bool
  | none => true
  | some (.obj fs) =>
    match assocLookup fs "coord" with
    | none => true
    | some c => coordObjOk c
  | some _ => false

/-- An endpoint is dict-shaped modulo missing keys: both variants pass
variantOk. -/
def shapeOk : JVal → Bool
  | .obj fs =>
    variantOk (assocLookup fs "address") && variantOk (assocLookup fs "stop_point")
  | _ => false

/-- The given variant of an endpoint carries a complete coordinate chain:
variant, coord, lat and lon keys all present. -/
def hasCoordChain (e : JVal) (v : String) : Bool :=
  match e with
  | .obj fs =>
    match assocLookup fs v with
    | some (.obj gs) =>
      match assocLookup gs "coord" with
      | some (.obj cs) =>
        (assocLookup cs "lat").isSome && (assocLookup cs "lon").isSome
      | _ => false
    | _ => false
  | _ => false

/-- The endpoint is missing the expected coordinate keys of both the address
and the stop-point variants (the condition of claim C8). -/
def endpointBroken (e : JVal) : Bool :=
  !hasCoordChain e "address" && !hasCoordChain e "stop_point"

/-! Concrete fixtures used by witnesses and counterexamples. -/

/-- Station candidate fixture in the shape the Transit Directory returns. -/
def mkStation (sid : String) (la lo : ℚ) : JVal :=
  .obj [("id", .str sid),
        ("stop_point", .obj [("coord", .obj [("lat", .num la), ("lon", .num lo)])])]

/-- Identifier projection used to compare station lists without comparing
whole payloads. -/
def stationId (st : JVal) : String :=
  match pySub st "id" with
  | .ok (.str s) => s
  | _ => ""

/-- Geodesy oracle returning the third argument (the destination latitude),
so a walking section from latitude 0 to latitude d measures exactly d. -/
def havLat2 : ℚ → ℚ → ℚ → ℚ → ℚ := fun _ _ la2 _ => la2

/-- Geodesy oracle returning the first argument (the station latitude when
used as a sort key), so station keys are plain literals. -/
def havLat1 : ℚ → ℚ → ℚ → ℚ → ℚ := fun la1 _ _ _ => la1

/-- Journey Service oracle that always fails. -/
def svcFail : ℚ → ℚ → ℚ → ℚ → Except PyErr JVal :=
  fun _ _ _ _ => .error (.svcError "connection refused")

/-- Walking section fixture from latitude 0 to latitude d: under havLat2 its
walking distance is d. -/
def walkSection (d : ℚ) : JVal :=
  .obj [("type", .str "street_network"), ("mode", .str "walking"),
        ("from", mkEndpoint "W1" 0 0), ("to", mkEndpoint "W2" d 0),
        ("duration", .num 60)]

/-- Stub journey with a single walking section of the given distance. -/
def stubJourney (sid : String) (d : ℚ) : JVal :=
  .obj [("id", .str sid), ("duration", .num 900),
        ("sections", .arr [walkSection d])]

/-- Stub Journey Service response with walking distances 500, 1500 and
2600 m. -/
def stubResponse : JVal :=
  .obj [("journeys", .arr [stubJourney "J500" 500, stubJourney "J1500" 1500,
                           stubJourney "J2600" 2600])]

/-- Journey Service oracle returning the stub response for every query. -/
def svcStub : ℚ → ℚ → ℚ → ℚ → Except PyErr JVal :=
  fun _ _ _ _ => .ok stubResponse

/-- Journey Service oracle that fails exactly for queries departing from
latitude 5 (the coordinates of the failing pair fixture). -/
def svcPartial : ℚ → ℚ → ℚ → ℚ → Except PyErr JVal :=
  fun la _ _ _ => if la = 5 then .error (.svcError "timeout") else .ok stubResponse

/-- Eleven interchangeable station payloads, for the slice-boundary
witness. -/
def demoStations : List JVal := List.replicate 11 .null

/-! Helper simp lemmas for computing with the Except monad. -/

@[simp] theorem except_bind_ok {α β : Type} (a : α) (f : α → Except PyErr β) :
    (Except.ok a : Except PyErr α) >>= f = f a := rfl

@[simp] theorem except_bind_err {α β : Type} (e : PyErr) (f : α → Except PyErr β) :
    (Except.error e : Except PyErr α) >>= f = .error e := rfl

@[simp] theorem except_pure_eq {α : Type} (a : α) :
    (pure a : Except PyErr α) = .ok a := rfl

/-- Claim C3: for every non-negative integer n and every stride length s > 0,
converting n steps to a distance and back yields n again:
calculate_steps (calculate_distance_from_steps n s) s = n.  In exact
arithmetic the round trip is the identity (int() truncation is the floor on
the non-negative quotient n). -/
theorem C3_steps_distance_roundtrip (n : ℕ) (s : ℚ) (hs : 0 < s) :
    calculate_steps (calculate_distance_from_steps n s) s = n := by
  unfold calculate_steps calculate_distance_from_steps pyTrunc
  rw [mul_div_cancel_right₀ _ (ne_of_gt hs)]
  have h0 : (0 : ℚ) ≤ ((n : ℤ) : ℚ) := by positivity
  rw [if_pos h0, Int.floor_intCast]

/-- Witness for C3 at n = 3, s = 1/2. -/
theorem C3_witness :
    (0 : ℚ) < 1 / 2 ∧
      calculate_steps (calculate_distance_from_steps 3 (1 / 2)) (1 / 2) = 3 :=
  ⟨by norm_num, C3_steps_distance_roundtrip 3 (1 / 2) (by norm_num)⟩

/-- Counterexample for claim C6: calculate_step_length performs no validation;
at height -170 it returns the stride -0.7038 m instead of failing. -/
theorem C6_counterexample_negative_height_returns_value :
    calculate_step_length (-170) = -(3519 / 5000) := by
  norm_num [calculate_step_length]

/-- Claim C6 amended: the stride-length computation applies the formula
height_cm / 100 * 0.414 unconditionally; for non-positive heights it returns
a non-positive stride length instead of raising a validation error. -/
theorem C6_amended_no_validation (h : ℚ) (hh : h ≤ 0) :
    calculate_step_length h ≤ 0 ∧ calculate_step_length h = h / 100 * 0.414 := by
  refine ⟨?_, rfl⟩
  unfold calculate_step_length
  ring_nf
  nlinarith

/-- Witness for the amended C6 at height -170. -/
theorem C6_witness :
    (-170 : ℚ) ≤ 0 ∧ calculate_step_length (-170) ≤ 0 :=
  ⟨by norm_num, (C6_amended_no_validation (-170) (by norm_num)).1⟩

/-- Inversion: a successful aggregation produces exactly a mkSummary of some
accumulated totals. -/
theorem format_ok_some_inv (hav : ℚ → ℚ → ℚ → ℚ → ℚ) (jd : JVal) (sl : ℚ)
    (s : Summary)
    (h : format_itinerary_with_steps hav jd sl = .ok (some s)) :
    ∃ t, s = mkSummary sl t := by
  unfold format_itinerary_with_steps at h
  cases h1 : pyGet jd "journeys" with
  | error e => rw [h1] at h; simp at h
  | ok js =>
    rw [h1] at h
    simp only [except_bind_ok] at h
    split at h
    · simp [except_pure_eq] at h
    · simp only [bind] at h
      cases h2 : pySub jd "journeys" with
      | error e => rw [h2] at h; simp [Except.bind] at h
      | ok jarr =>
        rw [h2] at h; simp only [Except.bind] at h
        cases h3 : pyIndex0 jarr with
        | error e => rw [h3] at h; simp at h
        | ok journey =>
          rw [h3] at h
          dsimp only at h
          cases h4 : pySub journey "duration" with
          | error e => rw [h4] at h; simp at h
          | ok du =>
            rw [h4] at h
            dsimp only at h
            cases h5 : pyFloat du with
            | error e => rw [h5] at h; simp at h
            | ok q =>
              rw [h5] at h
              dsimp only at h
              cases h6 : pySub journey "sections" with
              | error e => rw [h6] at h; simp at h
              | ok secsv =>
                rw [h6] at h
                dsimp only at h
                cases h7 : asArr secsv with
                | error e => rw [h7] at h; simp at h
                | ok secs =>
                  rw [h7] at h
                  dsimp only at h
                  cases h8 : secs.foldlM (sectionStep hav sl) ((0:ℚ), (0:ℚ), (0:ℚ)) with
                  | error e => rw [h8] at h; simp at h
                  | ok t =>
                    rw [h8] at h
                    simp at h
                    exact ⟨t, h.symm⟩

/-- Claim C4: in the aggregator, co2_car_equivalent_g equals
total_transit_distance_km times the Car emission factor 206.0, and
co2_saved_g equals co2_car_equivalent_g minus co2_transit_g, for every
successful aggregation. -/
theorem C4_aggregator_co2_relations (hav : ℚ → ℚ → ℚ → ℚ → ℚ) (jd : JVal)
    (sl : ℚ) (s : Summary)
    (h : format_itinerary_with_steps hav jd sl = .ok (some s)) :
    s.co2_car = s.total_distance * 206 ∧
      s.co2_saved = s.co2_car - s.co2_transit := by
  obtain ⟨t, rfl⟩ := format_ok_some_inv hav jd sl s h
  have hcar : (assocLookup EMISSIONS "Car").getD 0 = 206 := by
    simp [EMISSIONS, assocLookup]
    norm_num
  constructor
  · simp [mkSummary, hcar]
  · simp [mkSummary, hcar]

/-- The Car entry of the emission table. -/
theorem emissions_car : (assocLookup EMISSIONS "Car").getD 0 = 206 := by
  simp [EMISSIONS, assocLookup]
  norm_num

/-- Witness for C4: one PublicTransport section of mode Bus spanning 2 km
(geodesy oracle fixed at 2000 m) yields co2_transit_g = 190.6 = 953/5 and
co2_car_equivalent_g = 412, and the general relations follow by applying
C4_aggregator_co2_relations. -/
theorem C4_witness_bus_2km :
    ∃ s, format_itinerary_with_steps (havConst 2000) (ptJourneyData "Bus") 1 =
        .ok (some s) ∧
      s.co2_transit = 953 / 5 ∧ s.co2_car = 412 ∧
      s.co2_car = s.total_distance * 206 ∧
      s.co2_saved = s.co2_car - s.co2_transit := by
  have hsplit : splitWs "Bus" = ["Bus"] := by decide
  have hrun : format_itinerary_with_steps (havConst 2000) (ptJourneyData "Bus") 1 =
      .ok (some ⟨0, 0, 2, 953 / 5, 412, 1107 / 5⟩) := by
    simp [format_itinerary_with_steps, ptJourneyData, mkEndpoint, sectionStep,
      calculate_walking_distance, cwdBody, getCoord, pyGet, pySub, pyGetD,
      pyFloat, pyIndex0, asArr, asStr, headE, hsplit, jvEqStr, JVal.truthy,
      mkSummary, EMISSIONS, havConst, calculate_steps, pyTrunc, assocLookup,
      List.foldlM]
    norm_num
  refine ⟨_, hrun, by norm_num, by norm_num, ?_, ?_⟩
  · exact (C4_aggregator_co2_relations (havConst 2000) (ptJourneyData "Bus") 1 _ hrun).1
  · exact (C4_aggregator_co2_relations (havConst 2000) (ptJourneyData "Bus") 1 _ hrun).2

/-- Counterexample for claim C7: with an empty physical-mode string the
aggregator does not contribute 0 g/km; ''.split()[0] raises IndexError
(src/code/custom_step.py line 143), so the traversal fails. -/
theorem C7_counterexample_empty_mode_index_error :
    format_itinerary_with_steps (havConst 1000) (ptJourneyData "") 1 =
      .error .indexError := by
  have hsplit : splitWs "" = [] := by decide
  simp [format_itinerary_with_steps, ptJourneyData, mkEndpoint, sectionStep,
    calculate_walking_distance, cwdBody, getCoord, pyGet, pySub, pyGetD,
    pyFloat, pyIndex0, asArr, asStr, headE, hsplit, jvEqStr, JVal.truthy,
    havConst, assocLookup, List.foldlM]

/-- Claim C7 amended: the aggregator looks up the emission factor by the
first whitespace-delimited token of the section's physical-mode string
(e.g. 'RER A' uses 'RER'), and a first token not present in the emission
table contributes 0 g/km without error; however a missing or empty
physical-mode string raises an IndexError instead of contributing 0.
Stated on a one-section itinerary whose transit distance is 1 km, for every
physical-mode string with at least one token: the accumulated co2_transit is
exactly the table value of the first token (0 when absent). -/
theorem C7_amended_first_token_lookup (m : String) (hm : splitWs m ≠ []) :
    format_itinerary_with_steps (havConst 1000) (ptJourneyData m) 1 =
      .ok (some { total_steps := 0
                  total_walking_distance := 0
                  total_distance := 1
                  co2_transit := (assocLookup EMISSIONS ((splitWs m).headD "")).getD 0
                  co2_car := 206
                  co2_saved := 206 - (assocLookup EMISSIONS ((splitWs m).headD "")).getD 0 }) := by
  obtain ⟨a, rest, hsp⟩ := List.exists_cons_of_ne_nil hm
  simp [format_itinerary_with_steps, ptJourneyData, mkEndpoint, sectionStep,
    calculate_walking_distance, cwdBody, getCoord, pyGet, pySub, pyGetD,
    pyFloat, pyIndex0, asArr, asStr, headE, hsp, jvEqStr, JVal.truthy,
    mkSummary, havConst, calculate_steps, pyTrunc, EMISSIONS, assocLookup,
    List.foldlM]
  norm_num

/-- Witness for the amended C7: an unknown mode 'Hovercraft X' is looked up
by its first token 'Hovercraft', which is absent from the table, so the
section contributes 0 g/km and the aggregation succeeds. -/
theorem C7_witness_unknown_mode_zero :
    format_itinerary_with_steps (havConst 1000) (ptJourneyData "Hovercraft X") 1 =
      .ok (some ⟨0, 0, 1, 0, 206, 206⟩) := by
  have h := C7_amended_first_token_lookup "Hovercraft X" (by decide)
  have hd : (splitWs "Hovercraft X").headD "" = "Hovercraft" := by decide
  rw [hd] at h
  simpa [EMISSIONS, assocLookup] using h

/-- Claim C2: for sorted candidate lists longer than MAX_STATIONS = 10,
find_best_route's selection step takes the MAX_STATIONS farthest candidates
(the tail slice) of each list when target_steps > 3000 and the MAX_STATIONS
closest candidates (the head slice) when target_steps ≤ 3000, the boundary
3000 itself falling in the closest branch. -/
theorem C2_candidate_selection_policy (t : ℤ) (fs ts : List JVal)
    (hf : MAX_STATIONS < fs.length) (ht : MAX_STATIONS < ts.length) :
    (3000 < t →
      selectStations t fs ts =
        (fs.drop (fs.length - MAX_STATIONS), ts.drop (ts.length - MAX_STATIONS)) ∧
      (selectStations t fs ts).1.length = MAX_STATIONS ∧
      (selectStations t fs ts).2.length = MAX_STATIONS ∧
      fs.take (fs.length - MAX_STATIONS) ++ (selectStations t fs ts).1 = fs ∧
      ts.take (ts.length - MAX_STATIONS) ++ (selectStations t fs ts).2 = ts) ∧
    (t ≤ 3000 →
      selectStations t fs ts = (fs.take MAX_STATIONS, ts.take MAX_STATIONS) ∧
      (selectStations t fs ts).1.length = MAX_STATIONS ∧
      (selectStations t fs ts).2.length = MAX_STATIONS ∧
      (selectStations t fs ts).1 ++ fs.drop MAX_STATIONS = fs ∧
      (selectStations t fs ts).2 ++ ts.drop MAX_STATIONS = ts) := by
  constructor
  · intro h3
    have hsel : selectStations t fs ts =
        (fs.drop (fs.length - MAX_STATIONS), ts.drop (ts.length - MAX_STATIONS)) := by
      simp [selectStations, if_pos h3]
    refine ⟨hsel, ?_, ?_, ?_, ?_⟩ <;> rw [hsel]
    · simp only [List.length_drop]; omega
    · simp only [List.length_drop]; omega
    · exact List.take_append_drop _ fs
    · exact List.take_append_drop _ ts
  · intro h3
    have hsel : selectStations t fs ts = (fs.take MAX_STATIONS, ts.take MAX_STATIONS) := by
      simp [selectStations, if_neg (not_lt.mpr h3)]
    refine ⟨hsel, ?_, ?_, ?_, ?_⟩ <;> rw [hsel]
    · simp only [List.length_take]; omega
    · simp only [List.length_take]; omega
    · exact List.take_append_drop _ fs
    · exact List.take_append_drop _ ts

/-- Witness for C2 on an 11-element candidate list: target 3001 selects the
tail slice (drop 1), target 3000 selects the head slice (take 10). -/
theorem C2_witness_boundary :
    ((3000 : ℤ) < 3001 ∧
      selectStations 3001 demoStations demoStations =
        (demoStations.drop 1, demoStations.drop 1)) ∧
    ((3000 : ℤ) ≤ 3000 ∧
      selectStations 3000 demoStations demoStations =
        (demoStations.take 10, demoStations.take 10)) := by
  have hlen : demoStations.length = 11 := by simp [demoStations]
  have hMS : MAX_STATIONS < demoStations.length := by
    rw [hlen]; norm_num [MAX_STATIONS]
  have h1 := (C2_candidate_selection_policy 3001 demoStations demoStations hMS hMS).1
    (by norm_num)
  have h2 := (C2_candidate_selection_policy 3000 demoStations demoStations hMS hMS).2
    (by norm_num)
  refine ⟨⟨by norm_num, ?_⟩, ⟨by norm_num, ?_⟩⟩
  · rw [h1.1, hlen]; norm_num [MAX_STATIONS]
  · rw [h2.1]; norm_num [MAX_STATIONS]

/-- Claim C5: when the Journey Service call of one pair fails, the pair-loop
state is unchanged by that pair, so running the loop over all pairs equals
running it with the failing pair removed: the search continues and returns
the best result of the remaining pairs. -/
theorem C5_single_failure_skips_pair (hav : ℚ → ℚ → ℚ → ℚ → ℚ)
    (svc : ℚ → ℚ → ℚ → ℚ → Except PyErr JVal) (target : ℚ)
    (l1 l2 : List (JVal × JVal)) (p : JVal × JVal) (st : Option (JVal × ℚ))
    (a b c d : ℚ) (e : PyErr)
    (h1 : stationLatLon p.1 = .ok (a, b)) (h2 : stationLatLon p.2 = .ok (c, d))
    (h3 : svc a b c d = .error e) :
    loopPairs hav svc target (l1 ++ p :: l2) st =
      loopPairs hav svc target (l1 ++ l2) st := by
  have hpr : pairResponse hav svc p = .error e := by
    simp [pairResponse, h1, h2, h3]
  have hskip : ∀ s0, evalPair hav svc target s0 p = s0 := by
    intro s0; simp [evalPair, hpr]
  unfold loopPairs
  rw [List.foldl_append, List.foldl_cons, hskip, ← List.foldl_append]

/-- Witness for C5: with a service failing exactly on the second pair, the
two-pair loop equals the one-pair loop over the healthy pair. -/
theorem C5_witness :
    loopPairs havLat2 svcPartial 1400
        ([(mkStation "F1" 0 0, mkStation "T1" 1 0)] ++
          (mkStation "F2" 5 0, mkStation "T2" 6 0) :: []) none =
      loopPairs havLat2 svcPartial 1400
        ([(mkStation "F1" 0 0, mkStation "T1" 1 0)] ++ []) none := by
  apply C5_single_failure_skips_pair havLat2 svcPartial 1400 _ _ _ none 5 0 6 0
    (.svcError "timeout")
  · simp [stationLatLon, mkStation, pySub, pyFloat, assocLookup]
  · simp [stationLatLon, mkStation, pySub, pyFloat, assocLookup]
  · simp [svcPartial]

/-- Claim C10: whatever the Journey Service does — including raising an
arbitrary exception on any subset of pairs — the pair-evaluation loop never
propagates an exception: once the in-place sorts have succeeded,
find_best_route returns ok with either a journey or none. -/
theorem C10_loop_never_propagates (hav : ℚ → ℚ → ℚ → ℚ → ℚ)
    (svc : ℚ → ℚ → ℚ → ℚ → Except PyErr JVal)
    (fla flo tla tlo : ℚ) (fs ts : List JVal) (tsteps : ℤ) (sl : ℚ)
    (fs2 ts2 : List JVal)
    (h1 : sortStations hav fla flo fs = .ok fs2)
    (h2 : sortStations hav tla tlo ts = .ok ts2) :
    ∃ r, find_best_route hav svc fla flo tla tlo fs ts tsteps sl =
      .ok (r, fs2, ts2) := by
  refine ⟨(loopPairs hav svc (calculate_distance_from_steps tsteps sl)
    (searchPairs tsteps fs2 ts2) none).map (fun x => x.1), ?_⟩
  unfold find_best_route
  rw [h1]
  simp only [except_bind_ok]
  rw [h2]
  simp only [except_bind_ok, except_pure_eq]

/-- Witness for C10: a service that always fails still yields an ok result
(no journey) on singleton station lists. -/
theorem C10_witness :
    ∃ r, find_best_route havLat2 svcFail 0 0 0 0
        [mkStation "A" 10 0] [mkStation "B" 1 0] 500 1 =
      .ok (r, [mkStation "A" 10 0], [mkStation "B" 1 0]) := by
  have hs1 : sortStations havLat2 0 0 [mkStation "A" 10 0] =
      .ok [mkStation "A" 10 0] := by
    simp [sortStations, stationLatLon, mkStation, pySub, pyFloat, assocLookup,
      List.mapM, List.mapM.loop, List.mergeSort, havLat2]
  have hs2 : sortStations havLat2 0 0 [mkStation "B" 1 0] =
      .ok [mkStation "B" 1 0] := by
    simp [sortStations, stationLatLon, mkStation, pySub, pyFloat, assocLookup,
      List.mapM, List.mapM.loop, List.mergeSort, havLat2]
  exact C10_loop_never_propagates havLat2 svcFail 0 0 0 0 _ _ 500 1 _ _ hs1 hs2

/-- Keyed traversal of sortStations pairs each station with its own key:
when the mapM succeeds, projecting the second components gives back the
input list. -/
theorem mapM_keyed_snd (g : JVal → Except PyErr (ℚ × JVal))
    (hg : ∀ st x, g st = .ok x → x.2 = st) :
    ∀ (l : List JVal) (keyed : List (ℚ × JVal)), l.mapM g = .ok keyed →
      keyed.map (fun x => x.2) = l := by
  intro l
  induction l with
  | nil =>
    intro keyed h
    simp only [List.mapM_nil, except_pure_eq, Except.ok.injEq] at h
    subst h; rfl
  | cons a t ih =>
    intro keyed h
    rw [List.mapM_cons] at h
    cases hx : g a with
    | error e => rw [hx] at h; simp at h
    | ok x =>
      rw [hx] at h
      simp only [except_bind_ok] at h
      cases ht : t.mapM g with
      | error e => rw [ht] at h; simp at h
      | ok xs =>
        rw [ht] at h
        simp only [except_bind_ok, except_pure_eq, Except.ok.injEq] at h
        subst h
        simp only [List.map_cons, hg a x hx, ih xs ht]

/-- A successful in-place sort permutes the caller's list. -/
theorem sortStations_perm (hav : ℚ → ℚ → ℚ → ℚ → ℚ) (plat plon : ℚ)
    (l l2 : List JVal) (h : sortStations hav plat plon l = .ok l2) :
    l2.Perm l := by
  unfold sortStations at h
  cases hk : l.mapM (fun st => do
      let (la, lo) ← stationLatLon st
      pure (hav la lo plat plon, st)) with
  | error e => rw [hk] at h; simp at h
  | ok keyed =>
    rw [hk] at h
    simp only [except_bind_ok, except_pure_eq, Except.ok.injEq] at h
    have hsnd : keyed.map (fun x => x.2) = l := by
      refine mapM_keyed_snd _ ?_ l keyed hk
      intro st x hx
      cases hll : stationLatLon st with
      | error e => rw [hll] at hx; simp at hx
      | ok c =>
        rw [hll] at hx
        obtain ⟨la, lo⟩ := c
        simp only [except_bind_ok, except_pure_eq, Except.ok.injEq] at hx
        rw [← hx]
    subst h
    rw [← hsnd]
    exact (List.mergeSort_perm keyed _).map _

/-- Claim C9 amended: find_best_route does not consume its station lists
read-only — it sorts them in place — but it preserves their elements: after
the call each list is a permutation of the original (reordered by distance),
not necessarily in the original order. -/
theorem C9_amended_permutation (hav : ℚ → ℚ → ℚ → ℚ → ℚ)
    (svc : ℚ → ℚ → ℚ → ℚ → Except PyErr JVal)
    (fla flo tla tlo : ℚ) (fs ts : List JVal) (tsteps : ℤ) (sl : ℚ)
    (r : Option JVal) (fs2 ts2 : List JVal)
    (h : find_best_route hav svc fla flo tla tlo fs ts tsteps sl =
      .ok (r, fs2, ts2)) :
    fs2.Perm fs ∧ ts2.Perm ts := by
  unfold find_best_route at h
  cases h1 : sortStations hav fla flo fs with
  | error e => rw [h1] at h; simp at h
  | ok fsS =>
    rw [h1] at h
    simp only [except_bind_ok] at h
    cases h2 : sortStations hav tla tlo ts with
    | error e => rw [h2] at h; simp at h
    | ok tsS =>
      rw [h2] at h
      simp only [except_bind_ok, except_pure_eq, Except.ok.injEq,
        Prod.mk.injEq] at h
      obtain ⟨-, hfs, hts⟩ := h
      subst hfs; subst hts
      exact ⟨sortStations_perm hav fla flo fs fsS h1,
        sortStations_perm hav tla tlo ts tsS h2⟩

/-- Counterexample for claim C9: find_best_route does not leave its input
lists unchanged.  With two stations listed farthest-first, the in-place sort
reorders the caller's lists: both come back as [B, A] for input [A, B]. -/
theorem C9_counterexample_sort_reorders_input :
    find_best_route havLat1 svcFail 0 0 0 0
        [mkStation "A" 10 0, mkStation "B" 1 0]
        [mkStation "A" 10 0, mkStation "B" 1 0] 1000 1 =
      .ok (none, [mkStation "B" 1 0, mkStation "A" 10 0],
        [mkStation "B" 1 0, mkStation "A" 10 0]) ∧
    ([mkStation "B" 1 0, mkStation "A" 10 0] : List JVal) ≠
      [mkStation "A" 10 0, mkStation "B" 1 0] := by
  have hsort : sortStations havLat1 0 0 [mkStation "A" 10 0, mkStation "B" 1 0] =
      .ok [mkStation "B" 1 0, mkStation "A" 10 0] := by
    simp [sortStations, stationLatLon, mkStation, pySub, pyFloat, assocLookup,
      List.mapM, List.mapM.loop, havLat1, List.mergeSort, List.merge]
  constructor
  · unfold find_best_route
    rw [hsort]
    simp only [except_bind_ok, except_pure_eq]
    simp [searchPairs, selectStations, MAX_STATIONS, loopPairs, evalPair,
      pairResponse, stationLatLon, mkStation, pySub, pyFloat, assocLookup,
      svcFail, List.flatMap]
  · simp [mkStation]

/-- Witness for the amended C9: on the concrete two-station input the
returned list contents are a permutation of the caller's original lists,
obtained by applying C9_amended_permutation to the evaluated run. -/
theorem C9_witness :
    ([mkStation "B" 1 0, mkStation "A" 10 0] : List JVal).Perm
        [mkStation "A" 10 0, mkStation "B" 1 0] ∧
      ([mkStation "B" 1 0, mkStation "A" 10 0] : List JVal).Perm
        [mkStation "A" 10 0, mkStation "B" 1 0] := by
  have hsort : sortStations havLat1 0 0 [mkStation "A" 10 0, mkStation "B" 1 0] =
      .ok [mkStation "B" 1 0, mkStation "A" 10 0] := by
    simp [sortStations, stationLatLon, mkStation, pySub, pyFloat, assocLookup,
      List.mapM, List.mapM.loop, havLat1, List.mergeSort, List.merge]
  have hrun : find_best_route havLat1 svcFail 0 0 0 0
      [mkStation "A" 10 0, mkStation "B" 1 0]
      [mkStation "A" 10 0, mkStation "B" 1 0] 1000 1 =
      .ok (none, [mkStation "B" 1 0, mkStation "A" 10 0],
        [mkStation "B" 1 0, mkStation "A" 10 0]) := by
    unfold find_best_route
    rw [hsort]
    simp only [except_bind_ok, except_pure_eq]
    simp [searchPairs, selectStations, MAX_STATIONS, loopPairs, evalPair,
      pairResponse, stationLatLon, mkStation, pySub, pyFloat, assocLookup,
      svcFail, List.flatMap]
  exact C9_amended_permutation havLat1 svcFail 0 0 0 0 _ _ 1000 1 _ _ _ hrun

/-- Folding the strict-improvement update from an occupied accumulator:
either the accumulator survives (it is no worse than every later score), or
the result is an element of the list that strictly beats the accumulator and
every element before it, and is no worse than every element after it. -/
theorem bestFold_some_acc (l : List (JVal × ℚ)) :
    ∀ b r : JVal × ℚ, l.foldl stepBest (some b) = some r →
      (r = b ∧ ∀ x ∈ l, b.2 ≤ x.2) ∨
      (∃ l1 l2, l = l1 ++ r :: l2 ∧ (∀ x ∈ l1, r.2 < x.2) ∧ r.2 < b.2 ∧
        (∀ x ∈ l2, r.2 ≤ x.2)) := by
  induction l with
  | nil =>
    intro b r h
    simp only [List.foldl_nil, Option.some.injEq] at h
    exact Or.inl ⟨h.symm, by simp⟩
  | cons x t ih =>
    intro b r h
    rw [List.foldl_cons] at h
    by_cases hc : x.2 < b.2
    · rw [show stepBest (some b) x = some x from by simp [stepBest, if_pos hc]] at h
      rcases ih x r h with ⟨rfl, hall⟩ | ⟨l1, l2, heq, h1, h2, h3⟩
      · exact Or.inr ⟨[], t, by simp, by simp, hc, hall⟩
      · refine Or.inr ⟨x :: l1, l2, by rw [heq, List.cons_append], ?_, lt_trans h2 hc, h3⟩
        intro y hy
        rcases List.mem_cons.mp hy with rfl | hy2
        · exact h2
        · exact h1 y hy2
    · rw [show stepBest (some b) x = some b from by simp [stepBest, if_neg hc]] at h
      have hbx : b.2 ≤ x.2 := le_of_not_lt hc
      rcases ih b r h with ⟨rfl, hall⟩ | ⟨l1, l2, heq, h1, h2, h3⟩
      · refine Or.inl ⟨rfl, ?_⟩
        intro y hy
        rcases List.mem_cons.mp hy with rfl | hy2
        · exact hbx
        · exact hall y hy2
      · refine Or.inr ⟨x :: l1, l2, by rw [heq, List.cons_append], ?_, h2, h3⟩
        intro y hy
        rcases List.mem_cons.mp hy with rfl | hy2
        · exact lt_of_lt_of_le h2 hbx
        · exact h1 y hy2

/-- Folding the strict-improvement update from the empty accumulator
produces the first minimum of the list. -/
theorem bestFold_none (l : List (JVal × ℚ)) (j : JVal) (s : ℚ)
    (h : l.foldl stepBest none = some (j, s)) : FirstMin l j s := by
  cases l with
  | nil => simp at h
  | cons x t =>
    rw [List.foldl_cons, show stepBest none x = some x from rfl] at h
    rcases bestFold_some_acc t x (j, s) h with ⟨hx, hall⟩ | ⟨l1, l2, heq, h1, h2, h3⟩
    · cases hx
      exact ⟨[], t, rfl, by simp, hall⟩
    · refine ⟨x :: l1, l2, by rw [heq, List.cons_append], ?_, h3⟩
      intro y hy
      rcases List.mem_cons.mp hy with rfl | hy2
      · exact h2
      · exact h1 y hy2

/-- Under clean scoring, the journey loop of one pair is the fold of the
strict-improvement update over the journeys paired with their scores. -/
theorem journeysLoop_eq_fold (hav : ℚ → ℚ → ℚ → ℚ → ℚ) (target : ℚ)
    (jl : List JVal)
    (hclean : ∀ j ∈ jl, ∃ s, scoreJourney hav target j = .ok s) :
    ∀ st, journeysLoop hav target st jl =
      (jl.map (fun j => (j, ((scoreJourney hav target j).toOption).getD 0))).foldl
        stepBest st := by
  induction jl with
  | nil => intro st; rfl
  | cons j t ih =>
    intro st
    obtain ⟨s, hs⟩ := hclean j (by simp)
    simp only [journeysLoop, hs, List.map_cons, List.foldl_cons]
    rw [show ((Except.ok s : Except PyErr ℚ).toOption.getD 0) = s from rfl]
    exact ih (fun x hx => hclean x (by simp [hx])) _

/-- Under clean evaluation, one pair iteration is the fold of the update
over the pair's scored journeys. -/
theorem evalPair_eq_fold (hav : ℚ → ℚ → ℚ → ℚ → ℚ)
    (svc : ℚ → ℚ → ℚ → ℚ → Except PyErr JVal) (target : ℚ)
    (p : JVal × JVal) (st : Option (JVal × ℚ))
    (hc : cleanPair hav svc target p) :
    evalPair hav svc target st p =
      (scoredOf hav svc target p).foldl stepBest st := by
  unfold cleanPair at hc
  unfold evalPair scoredOf
  cases hpr : pairResponse hav svc p with
  | error e => rw [hpr] at hc; exact absurd hc (by simp)
  | ok o =>
    cases o with
    | none => simp
    | some jl =>
      rw [hpr] at hc
      exact journeysLoop_eq_fold hav target jl hc st

/-- Under clean evaluation of every pair, the whole pair loop is the fold of
the update over the concatenation of all scored journeys, in pair order then
response order. -/
theorem loopPairs_eq_fold (hav : ℚ → ℚ → ℚ → ℚ → ℚ)
    (svc : ℚ → ℚ → ℚ → ℚ → Except PyErr JVal) (target : ℚ)
    (pairs : List (JVal × JVal))
    (hc : ∀ p ∈ pairs, cleanPair hav svc target p) :
    ∀ st, loopPairs hav svc target pairs st =
      (pairs.flatMap (scoredOf hav svc target)).foldl stepBest st := by
  induction pairs with
  | nil => intro st; rfl
  | cons p t ih =>
    intro st
    simp only [loopPairs, List.foldl_cons, List.flatMap_cons, List.foldl_append]
    rw [show List.foldl (evalPair hav svc target)
        (evalPair hav svc target st p) t =
        loopPairs hav svc target t (evalPair hav svc target st p) from rfl]
    rw [evalPair_eq_fold hav svc target p st (hc p (by simp))]
    exact ih (fun q hq => hc q (by simp [hq])) _

/-- Claim C1: when every queried pair evaluates cleanly and find_best_route
returns a journey, that journey is one of minimal score
abs(total walking distance - target distance) over all itineraries returned
across all queried station pairs, and it is the first one encountered in
pair order then response order among those attaining the minimum. -/
theorem C1_find_best_route_selects_first_minimal_score
    (hav : ℚ → ℚ → ℚ → ℚ → ℚ) (svc : ℚ → ℚ → ℚ → ℚ → Except PyErr JVal)
    (fla flo tla tlo : ℚ) (fs ts : List JVal) (tsteps : ℤ) (sl : ℚ)
    (j : JVal) (fs2 ts2 : List JVal)
    (hrun : find_best_route hav svc fla flo tla tlo fs ts tsteps sl =
      .ok (some j, fs2, ts2))
    (hclean : ∀ p ∈ searchPairs tsteps fs2 ts2,
      cleanPair hav svc (calculate_distance_from_steps tsteps sl) p) :
    ∃ s, FirstMin
      ((searchPairs tsteps fs2 ts2).flatMap
        (scoredOf hav svc (calculate_distance_from_steps tsteps sl))) j s := by
  unfold find_best_route at hrun
  cases h1 : sortStations hav fla flo fs with
  | error e => rw [h1] at hrun; simp at hrun
  | ok fsS =>
    rw [h1] at hrun
    simp only [except_bind_ok] at hrun
    cases h2 : sortStations hav tla tlo ts with
    | error e => rw [h2] at hrun; simp at hrun
    | ok tsS =>
      rw [h2] at hrun
      simp only [except_bind_ok, except_pure_eq, Except.ok.injEq,
        Prod.mk.injEq] at hrun
      obtain ⟨hfin, hfs, hts⟩ := hrun
      rw [← hfs, ← hts] at hclean ⊢
      cases hopt : loopPairs hav svc (calculate_distance_from_steps tsteps sl)
          (searchPairs tsteps fsS tsS) none with
      | none => rw [hopt] at hfin; simp at hfin
      | some pr =>
        rw [hopt] at hfin
        obtain ⟨j2, s⟩ := pr
        simp at hfin
        subst hfin
        refine ⟨s, ?_⟩
        have hfold := loopPairs_eq_fold hav svc
          (calculate_distance_from_steps tsteps sl)
          (searchPairs tsteps fsS tsS) hclean none
        rw [hopt] at hfold
        exact bestFold_none _ j2 s hfold.symm

/-- Witness for C1: a stub Journey Service returning itineraries whose
walking distances are 500, 1500 and 2600 m, with target distance 1400 m
(1400 steps of stride 1), makes find_best_route select the 1500 m itinerary,
and by C1_find_best_route_selects_first_minimal_score it is the first
minimal-score itinerary. -/
theorem C1_witness_stub_selects_1500m :
    find_best_route havLat2 svcStub 0 0 0 0 [mkStation "F" 0 0]
        [mkStation "T" 0 0] 1400 1 =
      .ok (some (stubJourney "J1500" 1500), [mkStation "F" 0 0],
        [mkStation "T" 0 0]) ∧
    ∃ s, FirstMin
      ((searchPairs 1400 [mkStation "F" 0 0] [mkStation "T" 0 0]).flatMap
        (scoredOf havLat2 svcStub (calculate_distance_from_steps 1400 1)))
      (stubJourney "J1500" 1500) s := by
  have htgt : calculate_distance_from_steps 1400 1 = 1400 := by
    norm_num [calculate_distance_from_steps]
  have hsortF : sortStations havLat2 0 0 [mkStation "F" 0 0] =
      .ok [mkStation "F" 0 0] := by
    simp [sortStations, stationLatLon, mkStation, pySub, pyFloat, assocLookup,
      List.mapM, List.mapM.loop, havLat2, List.mergeSort]
  have hsortT : sortStations havLat2 0 0 [mkStation "T" 0 0] =
      .ok [mkStation "T" 0 0] := by
    simp [sortStations, stationLatLon, mkStation, pySub, pyFloat, assocLookup,
      List.mapM, List.mapM.loop, havLat2, List.mergeSort]
  have hsp : searchPairs 1400 [mkStation "F" 0 0] [mkStation "T" 0 0] =
      [(mkStation "F" 0 0, mkStation "T" 0 0)] := by
    norm_num [searchPairs, selectStations, MAX_STATIONS, List.flatMap]
  have hcwd : ∀ d : ℚ, calculate_walking_distance havLat2 (walkSection d) =
      .ok d := by
    intro d
    simp [calculate_walking_distance, walkSection, mkEndpoint, cwdBody,
      getCoord, pyGet, pySub, pyFloat, assocLookup, jvEqStr, JVal.truthy,
      havLat2]
  have htype : ∀ d : ℚ, pySub (walkSection d) "type" =
      .ok (.str "street_network") := by
    intro d; simp [walkSection, pySub, assocLookup]
  have hmode : ∀ d : ℚ, pySub (walkSection d) "mode" =
      .ok (.str "walking") := by
    intro d; simp [walkSection, pySub, assocLookup]
  have hsecs : ∀ (sid : String) (d : ℚ),
      pySub (stubJourney sid d) "sections" = .ok (.arr [walkSection d]) := by
    intro sid d; simp [stubJourney, pySub, assocLookup]
  have hscore : ∀ (sid : String) (d : ℚ),
      scoreJourney havLat2 1400 (stubJourney sid d) = .ok |d - 1400| := by
    intro sid d
    simp [scoreJourney, hsecs, walking_distance_sum,
      List.foldlM, asArr, jvEqStr, htype, hmode, hcwd]
  have hpr : pairResponse havLat2 svcStub
      (mkStation "F" 0 0, mkStation "T" 0 0) =
      .ok (some [stubJourney "J500" 500, stubJourney "J1500" 1500,
        stubJourney "J2600" 2600]) := by
    simp [pairResponse, stationLatLon, mkStation, pySub, pyFloat, assocLookup,
      svcStub, stubResponse, pyGet, JVal.truthy, asArr]
  have habs1 : |(500 : ℚ) - 1400| = 900 := by norm_num
  have habs2 : |(1500 : ℚ) - 1400| = 100 := by norm_num
  have habs3 : |(2600 : ℚ) - 1400| = 1200 := by norm_num
  have hrun : find_best_route havLat2 svcStub 0 0 0 0 [mkStation "F" 0 0]
      [mkStation "T" 0 0] 1400 1 =
      .ok (some (stubJourney "J1500" 1500), [mkStation "F" 0 0],
        [mkStation "T" 0 0]) := by
    unfold find_best_route
    rw [hsortF]
    simp only [except_bind_ok]
    rw [hsortT]
    simp only [except_bind_ok, except_pure_eq]
    rw [htgt, hsp]
    simp only [loopPairs, List.foldl_cons, List.foldl_nil, evalPair, hpr]
    simp only [journeysLoop, hscore, habs1, habs2, habs3, stepBest]
    norm_num
  have hclean : ∀ p ∈ searchPairs 1400 [mkStation "F" 0 0] [mkStation "T" 0 0],
      cleanPair havLat2 svcStub (calculate_distance_from_steps 1400 1) p := by
    intro p hp
    rw [hsp] at hp
    simp only [List.mem_singleton] at hp
    subst hp
    rw [htgt]
    simp only [cleanPair, hpr]
    intro j hj
    simp only [List.mem_cons, List.not_mem_nil, or_false] at hj
    rcases hj with rfl | rfl | rfl
    · exact ⟨_, hscore "J500" 500⟩
    · exact ⟨_, hscore "J1500" 1500⟩
    · exact ⟨_, hscore "J2600" 2600⟩
  exact ⟨hrun, C1_find_best_route_selects_first_minimal_score havLat2 svcStub
    0 0 0 0 _ _ 1400 1 _ _ _ hrun hclean⟩

/-- Chasing one variant chain of an endpoint under variantOk: the resolution
either raises a KeyError or yields an acceptable coord dict, and when the
coord dict carries both leaves the chain is complete. -/
theorem variantChase (fs : List (String × JVal)) (v : String)
    (hv : variantOk (assocLookup fs v) = true) :
    (∃ k, (do
        let a ← pySub (.obj fs) v
        pySub a "coord") = (.error (.keyError k) : Except PyErr JVal)) ∨
    (∃ cs, (do
        let a ← pySub (.obj fs) v
        pySub a "coord") = (.ok (.obj cs) : Except PyErr JVal) ∧
      leafOk (assocLookup cs "lat") = true ∧
      leafOk (assocLookup cs "lon") = true ∧
      (((assocLookup cs "lat").isSome && (assocLookup cs "lon").isSome) = true →
        hasCoordChain (.obj fs) v = true)) := by
  cases hl : assocLookup fs v with
  | none => exact Or.inl ⟨v, by simp [pySub, hl]⟩
  | some w =>
    rw [hl] at hv
    cases w with
    | obj gs =>
      cases hc : assocLookup gs "coord" with
      | none => exact Or.inl ⟨"coord", by simp [pySub, hl, hc]⟩
      | some c =>
        have hco : coordObjOk c = true := by
          simpa [variantOk, hc] using hv
        cases c with
        | obj cs =>
          have hlats : leafOk (assocLookup cs "lat") = true ∧
              leafOk (assocLookup cs "lon") = true := by
            simpa [coordObjOk, Bool.and_eq_true] using hco
          refine Or.inr ⟨cs, by simp [pySub, hl, hc], hlats.1, hlats.2, ?_⟩
          intro hsome
          simp [hasCoordChain, hl, hc, hsome]
        | null => simp [coordObjOk] at hco
        | bool b => simp [coordObjOk] at hco
        | num q => simp [coordObjOk] at hco
        | str s => simp [coordObjOk] at hco
        | arr xs => simp [coordObjOk] at hco
    | null => simp [variantOk] at hv
    | bool b => simp [variantOk] at hv
    | num q => simp [variantOk] at hv
    | str s => simp [variantOk] at hv
    | arr xs => simp [variantOk] at hv

/-- Resolving the coordinates of a shape-acceptable endpoint either raises a
KeyError or returns an acceptable coord dict whose completeness refutes
endpointBroken. -/
theorem getCoord_shapeOk (e : JVal) (he : shapeOk e = true) :
    (∃ k, getCoord e = .error (.keyError k)) ∨
    (∃ cs, getCoord e = .ok (.obj cs) ∧
      leafOk (assocLookup cs "lat") = true ∧
      leafOk (assocLookup cs "lon") = true ∧
      ((assocLookup cs "lat").isSome = true →
        (assocLookup cs "lon").isSome = true → endpointBroken e = false)) := by
  cases e with
  | obj fs =>
    have hva : variantOk (assocLookup fs "address") = true ∧
        variantOk (assocLookup fs "stop_point") = true := by
      simpa [shapeOk, Bool.and_eq_true] using he
    unfold getCoord
    simp only [pyGet, except_bind_ok]
    by_cases het :
        jvEqStr ((assocLookup fs "embedded_type").getD .null) "address" = true
    · rw [if_pos het]
      rcases variantChase fs "address" hva.1 with ⟨k, hk⟩ | ⟨cs, hok, hla, hlo, hch⟩
      · exact Or.inl ⟨k, hk⟩
      · refine Or.inr ⟨cs, hok, hla, hlo, ?_⟩
        intro h1 h2
        have hchain := hch (by rw [h1, h2]; rfl)
        simp [endpointBroken, hchain]
    · rw [if_neg het]
      rcases variantChase fs "stop_point" hva.2 with ⟨k, hk⟩ | ⟨cs, hok, hla, hlo, hch⟩
      · exact Or.inl ⟨k, hk⟩
      · refine Or.inr ⟨cs, hok, hla, hlo, ?_⟩
        intro h1 h2
        have hchain := hch (by rw [h1, h2]; rfl)
        simp [endpointBroken, hchain]
  | null => simp [shapeOk] at he
  | bool b => simp [shapeOk] at he
  | num q => simp [shapeOk] at he
  | str s => simp [shapeOk] at he
  | arr xs => simp [shapeOk] at he

/-- Claim C8: for a section whose 'from' or 'to' endpoint is absent or falsy,
or whose (dict-shaped) endpoint is missing the expected coordinate keys of
both the address and the stop-point variants, calculate_walking_distance
returns distance 0 and raises no exception: the only exception those inputs
can produce is a KeyError, which the function catches. -/
theorem C8_missing_coord_keys_zero_distance (hav : ℚ → ℚ → ℚ → ℚ → ℚ)
    (sec f t : JVal)
    (hf : pyGet sec "from" = .ok f) (ht : pyGet sec "to" = .ok t)
    (hsf : shapeOk f = true ∨ f.truthy = false)
    (hst : shapeOk t = true ∨ t.truthy = false)
    (hcond : f.truthy = false ∨ t.truthy = false ∨
      endpointBroken f = true ∨ endpointBroken t = true) :
    calculate_walking_distance hav sec = .ok 0 := by
  unfold calculate_walking_distance
  rw [hf, ht]
  dsimp only
  cases hfb : f.truthy with
  | false => simp
  | true =>
    cases htb : t.truthy with
    | false => simp
    | true =>
      rw [if_neg (by simp)]
      have hsf2 : shapeOk f = true := hsf.resolve_right (by rw [hfb]; simp)
      have hst2 : shapeOk t = true := hst.resolve_right (by rw [htb]; simp)
      have hbr : endpointBroken f = true ∨ endpointBroken t = true := by
        rcases hcond with h | h | h | h
        · rw [hfb] at h; exact absurd h (by simp)
        · rw [htb] at h; exact absurd h (by simp)
        · exact Or.inl h
        · exact Or.inr h
      have hkey : ∃ k, cwdBody hav f t = .error (.keyError k) := by
        unfold cwdBody
        rcases getCoord_shapeOk f hsf2 with ⟨k, hk⟩ | ⟨csf, hokf, hlaf, hlof, hchf⟩
        · exact ⟨k, by rw [hk]; rfl⟩
        · rcases getCoord_shapeOk t hst2 with ⟨k, hk⟩ | ⟨cst, hokt, hlat2, hlot2, hcht⟩
          · exact ⟨k, by rw [hokf]; simp only [except_bind_ok]; rw [hk]; rfl⟩
          · cases hl1 : assocLookup csf "lat" with
            | none =>
              refine ⟨"lat", ?_⟩
              simp [hokf, hokt, except_bind_ok, except_bind_err, pySub, hl1]
            | some v1 =>
              have hv1 : ∃ q1, v1 = JVal.num q1 := by
                rw [hl1] at hlaf
                cases v1 with
                | num q => exact ⟨q, rfl⟩
                | null => simp [leafOk] at hlaf
                | bool b => simp [leafOk] at hlaf
                | str s => simp [leafOk] at hlaf
                | arr xs => simp [leafOk] at hlaf
                | obj gs => simp [leafOk] at hlaf
              obtain ⟨q1, rfl⟩ := hv1
              cases hl2 : assocLookup csf "lon" with
              | none =>
                refine ⟨"lon", ?_⟩
                simp [hokf, hokt, except_bind_ok, except_bind_err, pySub,
                  pyFloat, hl1, hl2]
              | some v2 =>
                have hv2 : ∃ q2, v2 = JVal.num q2 := by
                  rw [hl2] at hlof
                  cases v2 with
                  | num q => exact ⟨q, rfl⟩
                  | null => simp [leafOk] at hlof
                  | bool b => simp [leafOk] at hlof
                  | str s => simp [leafOk] at hlof
                  | arr xs => simp [leafOk] at hlof
                  | obj gs => simp [leafOk] at hlof
                obtain ⟨q2, rfl⟩ := hv2
                cases hl3 : assocLookup cst "lat" with
                | none =>
                  refine ⟨"lat", ?_⟩
                  simp [hokf, hokt, except_bind_ok, except_bind_err, pySub,
                    pyFloat, hl1, hl2, hl3]
                | some v3 =>
                  have hv3 : ∃ q3, v3 = JVal.num q3 := by
                    rw [hl3] at hlat2
                    cases v3 with
                    | num q => exact ⟨q, rfl⟩
                    | null => simp [leafOk] at hlat2
                    | bool b => simp [leafOk] at hlat2
                    | str s => simp [leafOk] at hlat2
                    | arr xs => simp [leafOk] at hlat2
                    | obj gs => simp [leafOk] at hlat2
                  obtain ⟨q3, rfl⟩ := hv3
                  cases hl4 : assocLookup cst "lon" with
                  | none =>
                    refine ⟨"lon", ?_⟩
                    simp [hokf, hokt, except_bind_ok, except_bind_err, pySub,
                      pyFloat, hl1, hl2, hl3, hl4]
                  | some v4 =>
                    have hbf := hchf (by rw [hl1]; rfl) (by rw [hl2]; rfl)
                    have hbt := hcht (by rw [hl3]; rfl) (by rw [hl4]; rfl)
                    rcases hbr with h | h
                    · rw [hbf] at h; exact absurd h (by simp)
                    · rw [hbt] at h; exact absurd h (by simp)
      obtain ⟨k, hk⟩ := hkey
      rw [hk]

/-- Witness for C8: a section whose from-endpoint has a stop_point variant
without a coord (and no address variant) gets walking distance 0, by
applying C8_missing_coord_keys_zero_distance. -/
theorem C8_witness :
    calculate_walking_distance (havConst 37)
      (.obj [("from", .obj [("embedded_type", .str "stop_point"),
          ("stop_point", .obj [("name", .str "X")])]),
        ("to", .obj [("embedded_type", .str "address"),
          ("address", .obj [("coord",
            .obj [("lat", .num 1), ("lon", .num 2)])])])]) = .ok 0 := by
  apply C8_missing_coord_keys_zero_distance (havConst 37) _
    (.obj [("embedded_type", .str "stop_point"),
      ("stop_point", .obj [("name", .str "X")])])
    (.obj [("embedded_type", .str "address"),
      ("address", .obj [("coord", .obj [("lat", .num 1), ("lon", .num 2)])])])
  · rfl
  · rfl
  · exact Or.inl (by decide)
  · exact Or.inl (by decide)
  · exact Or.inr (Or.inr (Or.inl (by decide)))
